import Mathlib

/-!
Shallow embedding of `src/main.py` (a Telegram vitamin-reminder bot) and
verification of the specification claims about it.

Modelling conventions:
* `datetime.now(TIMEZONE).date().isoformat()` is passed in explicitly as a
  `today : String` parameter (ISO date string, compared for equality only,
  exactly as the source does).
* `datetime.now(TIMEZONE).weekday()` (Python convention: Monday = 0 …
  Sunday = 6) is passed in explicitly as a `Nat` parameter.
* The in-memory store `user_states` is modelled as a function
  `Nat → Option VitaminState`; `save_data` writes to disk and is modelled
  where a claim needs it as a `saved : Bool` flag on the result.
* Message text sent through the Telegram transport is modelled as the
  literal string from the source.
-/

namespace VitaminBot

/-- The per-user state class `VitaminState` from `src/main.py` lines 29-44:
two confirmation flags, two reminder counters, and the ISO date string
`last_reset` the state applies to. -/
structure VitaminState where
  morning_taken : Bool
  lunch_taken : Bool
  morning_reminder_count : Nat
  lunch_reminder_count : Nat
  last_reset : String
deriving DecidableEq, Repr

/-- `VitaminState.__init__` (lines 30-35): fresh zero state dated `today`
(the source initialises `last_reset` to the current date). -/
def VitaminState.init (today : String) : VitaminState :=
  { morning_taken := false
    lunch_taken := false
    morning_reminder_count := 0
    lunch_reminder_count := 0
    last_reset := today }

/-- `VitaminState.reset_if_new_day` (lines 37-44): if `today` differs from
`last_reset`, zero both flags and both counters and stamp `last_reset` with
`today`; otherwise leave the state untouched. -/
def VitaminState.reset_if_new_day (st : VitaminState) (today : String) : VitaminState :=
  if today ≠ st.last_reset then
    { morning_taken := false
      lunch_taken := false
      morning_reminder_count := 0
      lunch_reminder_count := 0
      last_reset := today }
  else st

/-- `get_user_state` (lines 100-106): lazily create a fresh state for an
unknown user, apply the rollover check, store the result back, and return
it together with the updated store.  (The `save_data()` call on line 105
persists the whole table; it does not change the in-memory store, so it
does not appear in this value.) -/
def get_user_state (states : Nat → Option VitaminState) (user_id : Nat)
    (today : String) : VitaminState × (Nat → Option VitaminState) :=
  let st0 := match states user_id with
    | some s => s
    | none => VitaminState.init today
  let st := st0.reset_if_new_day today
  (st, fun u => if u = user_id then some st else states u)

/-- `is_weekend` (lines 108-110): `datetime.now(TIMEZONE).weekday() >= 5`,
with the Python weekday index (Monday = 0 … Sunday = 6) made explicit. -/
def is_weekend (weekday : Nat) : Bool :=
  weekday ≥ 5

/-- After a rollover check the state is always stamped with `today`. -/
lemma VitaminState.last_reset_of_reset_if_new_day (st : VitaminState) (today : String) :
    (st.reset_if_new_day today).last_reset = today := by
  unfold VitaminState.reset_if_new_day
  split
  · rfl
  · next h => simpa using (not_ne_iff.mp h).symm

/-- Rolling over a state already stamped with `today` is a no-op. -/
lemma VitaminState.reset_if_new_day_of_current (st : VitaminState) (today : String)
    (h : st.last_reset = today) : st.reset_if_new_day today = st := by
  unfold VitaminState.reset_if_new_day
  simp [h]

/-- C5: Rollover is idempotent.  Applying `reset_if_new_day` a second time
with the same `today` changes nothing, and calling the get-or-create
accessor `get_user_state` a second time on the same date returns the same
state and leaves the store unchanged. -/
theorem rollover_idempotent (states : Nat → Option VitaminState) (user_id : Nat)
    (today : String) (st : VitaminState) :
    (st.reset_if_new_day today).reset_if_new_day today = st.reset_if_new_day today ∧
    get_user_state (get_user_state states user_id today).2 user_id today =
      get_user_state states user_id today := by
  constructor
  · exact VitaminState.reset_if_new_day_of_current _ _
      (VitaminState.last_reset_of_reset_if_new_day st today)
  · unfold get_user_state
    simp only [if_pos rfl]
    have hfix : ∀ s : VitaminState,
        (s.reset_if_new_day today).reset_if_new_day today = s.reset_if_new_day today :=
      fun s => VitaminState.reset_if_new_day_of_current _ _
        (VitaminState.last_reset_of_reset_if_new_day s today)
    refine Prod.ext ?_ ?_
    · exact hfix _
    · funext u
      by_cases hu : u = user_id <;> simp [hu, hfix]

/-- C6: On a new day (`today ≠ last_reset`) the rollover check resets both
flags to `false`, both counters to `0`, and stamps `last_reset := today`,
whatever the previous field values were. -/
theorem rollover_new_day_zeroes (st : VitaminState) (today : String)
    (h : today ≠ st.last_reset) :
    st.reset_if_new_day today =
      { morning_taken := false
        lunch_taken := false
        morning_reminder_count := 0
        lunch_reminder_count := 0
        last_reset := today } := by
  unfold VitaminState.reset_if_new_day
  simp [h]

/-- Witness for C6 at a concrete state and date. -/
theorem rollover_new_day_zeroes_witness :
    ("2024-01-02" : String) ≠ "2024-01-01" ∧
    VitaminState.reset_if_new_day
      { morning_taken := true
        lunch_taken := true
        morning_reminder_count := 2
        lunch_reminder_count := 1
        last_reset := "2024-01-01" } "2024-01-02" =
      { morning_taken := false
        lunch_taken := false
        morning_reminder_count := 0
        lunch_reminder_count := 0
        last_reset := "2024-01-02" } :=
  ⟨by decide, rollover_new_day_zeroes _ _ (by decide)⟩

/-- C8: `is_weekend` holds exactly when the ISO weekday (Python weekday
index plus one) is 6 or 7, i.e. Saturday or Sunday. -/
theorem weekend_iff_iso_6_or_7 (weekday : Nat) (h : weekday < 7) :
    is_weekend weekday = true ↔ (weekday + 1 = 6 ∨ weekday + 1 = 7) := by
  unfold is_weekend
  constructor
  · intro hw
    have : 5 ≤ weekday := by simpa using hw
    omega
  · intro hw
    simp only [decide_eq_true_eq]
    omega

/-- Witness for C8 at Saturday (Python weekday 5). -/
theorem weekend_iff_iso_6_or_7_witness :
    (5 : Nat) < 7 ∧ (is_weekend 5 = true ↔ (5 + 1 = 6 ∨ 5 + 1 = 7)) :=
  ⟨by decide, weekend_iff_iso_6_or_7 5 (by decide)⟩

/-- The five reminder slot names carried in `context.job.data['type']`
(`schedule_daily_reminders` only ever installs these five). -/
inductive Slot where
  | morning_first
  | morning_second
  | lunch_first
  | lunch_second
  | final
deriving DecidableEq, Repr

/-- Message text of the first morning reminder (line 254). -/
def msg_morning_first : String :=
  "🌅 Доброе утро! Время утренних витаминов! 💊\n\nУспеваешь принять?"

/-- Message text of the second morning reminder (line 263). -/
def msg_morning_second : String :=
  "⏰ Напоминаю про утренние витамины! 💊\n\nУспеваешь принять?"

/-- Combined lunch + overdue-morning message (lines 272-276). -/
def msg_lunch_first_both : String :=
  "🍽 Время обеденных витаминов! 💊\n\n⚠️ Кажется, утренние витамины ещё не приняты!\n\nУспеваешь принять ОБА вида?"

/-- Plain lunch reminder message (line 282). -/
def msg_lunch_first_plain : String :=
  "🍽 Время обеденных витаминов! 💊\n\nУспеваешь принять?"

/-- Combined overdue-both message of the second lunch slot (lines 291-295). -/
def msg_lunch_second_both : String :=
  "⏰ Напоминаю про витамины! 💊\n\n⚠️ Утренние и обеденные ещё не приняты!\n\nУспеваешь принять оба вида?"

/-- Lunch reminder repeat message (line 301). -/
def msg_lunch_second_plain : String :=
  "⏰ Напоминаю про обеденные витамины! 💊\n\nУспеваешь принять?"

/-- Dose name appended for a missing morning dose (line 308). -/
def name_morning : String := "утренние 🌅"

/-- Dose name appended for a missing lunch dose (line 310). -/
def name_lunch : String := "обеденные 🍽"

/-- Final-slot message listing the still-missing dose names (lines 316-320);
`vitamins_text` is the `" и ".join(messages)` of line 313. -/
def msg_final_missing (vitamins_text : String) : String :=
  "🚨 Последнее напоминание на сегодня! 🚨\n\nНе забыты " ++ vitamins_text ++
    " витамины!\n\nУспеваешь принять?"

/-- Congratulation message of the final slot (line 327). -/
def msg_congrats : String :=
  "🎉 Отлично! Сегодня все витамины приняты! Молодец! 💪✨"

/-- Outcome of one firing of `send_vitamin_reminder`: the in-memory state
after the handler returns, whether the `save_data()` on line 330 ran, and
the texts successfully handed to the transport. -/
structure FireResult where
  state : VitaminState
  saved : Bool
  sent : List String
deriving DecidableEq, Repr

/-- The body of `send_vitamin_reminder` (lines 244-333) after the
`get_user_state` call, given the current-day state `st`.  `sendOk` is the
outcome of the (at most one) `context.bot.send_message` await: when it is
`false` the await raises, control jumps to the `except` block (which only
logs), and everything after the raising await — including the counter
assignments and the final `save_data()` — is skipped. -/
def send_vitamin_reminder (slot : Slot) (st : VitaminState) (sendOk : Bool) :
    FireResult :=
  match slot with
  | .morning_first =>
    if !st.morning_taken then
      if sendOk then
        { state := { st with morning_reminder_count := 1 }, saved := true
          sent := [msg_morning_first] }
      else { state := st, saved := false, sent := [] }
    else { state := st, saved := true, sent := [] }
  | .morning_second =>
    if !st.morning_taken then
      if sendOk then
        { state := { st with morning_reminder_count := 2 }, saved := true
          sent := [msg_morning_second] }
      else { state := st, saved := false, sent := [] }
    else { state := st, saved := true, sent := [] }
  | .lunch_first =>
    if !st.morning_taken && !st.lunch_taken then
      if sendOk then
        { state := { st with lunch_reminder_count := 1 }, saved := true
          sent := [msg_lunch_first_both] }
      else { state := st, saved := false, sent := [] }
    else if !st.lunch_taken then
      if sendOk then
        { state := { st with lunch_reminder_count := 1 }, saved := true
          sent := [msg_lunch_first_plain] }
      else { state := st, saved := false, sent := [] }
    else
      { state := { st with lunch_reminder_count := 1 }, saved := true, sent := [] }
  | .lunch_second =>
    if !st.morning_taken && !st.lunch_taken then
      if sendOk then { state := st, saved := true, sent := [msg_lunch_second_both] }
      else { state := st, saved := false, sent := [] }
    else if !st.lunch_taken then
      if sendOk then { state := st, saved := true, sent := [msg_lunch_second_plain] }
      else { state := st, saved := false, sent := [] }
    else { state := st, saved := true, sent := [] }
  | .final =>
    let messages : List String :=
      (if !st.morning_taken then [name_morning] else []) ++
      (if !st.lunch_taken then [name_lunch] else [])
    if messages ≠ [] then
      if sendOk then
        { state := st, saved := true
          sent := [msg_final_missing (String.intercalate " и " messages)] }
      else { state := st, saved := false, sent := [] }
    else
      if sendOk then { state := st, saved := true, sent := [msg_congrats] }
      else { state := st, saved := false, sent := [] }

/-- C2 counterexample: with a fresh state and slot `morning_first`, a failed
send leaves `morning_reminder_count = 0` (the assignment on line 257 is
never reached) while a successful send leaves it at 1, and the final
`save_data()` is skipped — refuting that the state after a failed send
equals the state after a successful send and that every branch persists. -/
theorem delivery_failure_counterexample :
    (send_vitamin_reminder .morning_first (VitaminState.init "2024-01-01") false).state ≠
      (send_vitamin_reminder .morning_first (VitaminState.init "2024-01-01") true).state ∧
    (send_vitamin_reminder .morning_first (VitaminState.init "2024-01-01") false).state =
      VitaminState.init "2024-01-01" ∧
    (send_vitamin_reminder .morning_first (VitaminState.init "2024-01-01") true).state =
      { VitaminState.init "2024-01-01" with morning_reminder_count := 1 } ∧
    (send_vitamin_reminder .morning_first (VitaminState.init "2024-01-01") false).saved = false := by
  refine ⟨?_, by decide, by decide, by decide⟩
  decide

/-- C2 amended: on every fire whose send (if any) succeeds the handler runs
the final persist; at most one send is attempted per fire (no retry); and
when the send fails the exception is caught (the handler still returns) but
the branch is aborted before any counter mutation and before the final
persist, so the state after a failed send equals the state *before* the
fire, not the state after a successful send. -/
theorem delivery_failure_amended (slot : Slot) (st : VitaminState) (b : Bool) :
    (send_vitamin_reminder slot st true).saved = true ∧
    (send_vitamin_reminder slot st b).sent.length ≤ 1 ∧
    ((send_vitamin_reminder slot st false).saved = false →
      (send_vitamin_reminder slot st false).state = st ∧
      (send_vitamin_reminder slot st false).sent = []) ∧
    ((send_vitamin_reminder slot st false).saved = true →
      send_vitamin_reminder slot st false = send_vitamin_reminder slot st true) := by
  rcases st with ⟨m, l, mc, lc, d⟩
  cases slot <;> cases m <;> cases l <;> cases b <;>
    simp [send_vitamin_reminder]

/-- Witness for C2's amended theorem at a concrete slot and state. -/
theorem delivery_failure_amended_witness :
    (send_vitamin_reminder .lunch_first (VitaminState.init "2024-01-01") true).saved = true :=
  (delivery_failure_amended .lunch_first (VitaminState.init "2024-01-01") true).1

/-- C3: when `lunch_first` fires (sends succeeding), `lunch_reminder_count`
is set to 1 unconditionally — including when `lunch_taken` is already true
and nothing is sent — whereas `morning_first`/`morning_second` update
`morning_reminder_count` (to 1 resp. 2) only when `morning_taken` is false,
and change nothing at all when it is true. -/
theorem lunch_counter_asymmetry (st : VitaminState) :
    (send_vitamin_reminder .lunch_first st true).state.lunch_reminder_count = 1 ∧
    (send_vitamin_reminder .lunch_first { st with lunch_taken := true } true).sent = [] ∧
    (send_vitamin_reminder .lunch_first { st with lunch_taken := true } true).state.lunch_reminder_count = 1 ∧
    (send_vitamin_reminder .morning_first st true).state.morning_reminder_count =
      (if st.morning_taken then st.morning_reminder_count else 1) ∧
    (send_vitamin_reminder .morning_second st true).state.morning_reminder_count =
      (if st.morning_taken then st.morning_reminder_count else 2) ∧
    (send_vitamin_reminder .morning_first { st with morning_taken := true } true).state =
      { st with morning_taken := true } ∧
    (send_vitamin_reminder .morning_second { st with morning_taken := true } true).state =
      { st with morning_taken := true } := by
  rcases st with ⟨m, l, mc, lc, d⟩
  cases m <;> cases l <;> simp [send_vitamin_reminder]

/-- C4: at the `final` slot (send succeeding), with both doses taken the
congratulation message is sent and no dose names are listed; otherwise the
message lists exactly the names of the still-missing doses joined with
`" и "` — in particular `morning_taken = false, lunch_taken = true` lists
exactly the morning dose. -/
theorem final_slot_variants (st : VitaminState) :
    (send_vitamin_reminder .final { st with morning_taken := true, lunch_taken := true } true).sent
      = [msg_congrats] ∧
    (send_vitamin_reminder .final { st with morning_taken := false, lunch_taken := true } true).sent
      = [msg_final_missing (String.intercalate " и " [name_morning])] ∧
    (send_vitamin_reminder .final { st with morning_taken := true, lunch_taken := false } true).sent
      = [msg_final_missing (String.intercalate " и " [name_lunch])] ∧
    (send_vitamin_reminder .final { st with morning_taken := false, lunch_taken := false } true).sent
      = [msg_final_missing (String.intercalate " и " [name_morning, name_lunch])] := by
  rcases st with ⟨m, l, mc, lc, d⟩
  simp [send_vitamin_reminder]

/-! ### User-reply handling

Incoming message text is modelled as a list of Unicode code points
(`List Nat`), so that Python's `str.lower()` and `str.strip()` can be
modelled character by character. -/

/-- Python `str.lower()` on one code point, modelled on the ranges the bot
can meet: ASCII capitals `A`-`Z` (65-90) map down by 32, Cyrillic capitals
`А`-`Я` (U+0410-U+042F, 1040-1071) map down by 32, and `Ё` (U+0401, 1025)
maps to `ё` (U+0451, 1105); every other code point is unchanged. -/
def pyLowerChar (c : Nat) : Nat :=
  if 65 ≤ c ∧ c ≤ 90 then c + 32
  else if 1040 ≤ c ∧ c ≤ 1071 then c + 32
  else if c = 1025 then 1105
  else c

/-- Python whitespace test used by `str.strip()`, modelled on the ASCII
whitespace code points (space, TAB, LF, VT, FF, CR). -/
def pyIsSpace (c : Nat) : Bool :=
  (c == 32) || (c == 9) || (c == 10) || (c == 11) || (c == 12) || (c == 13)

/-- Python `str.lower()` over a whole text. -/
def pyLower (t : List Nat) : List Nat :=
  t.map pyLowerChar

/-- Python `str.strip()`: drop whitespace from both ends. -/
def pyStrip (t : List Nat) : List Nat :=
  (t.dropWhile pyIsSpace).rdropWhile pyIsSpace

/-- The affirmative word `"да"` as code points (д = U+0434, а = U+0430). -/
def affirmative_word : List Nat := [1076, 1072]

/-- The negative word `"нет"` as code points (н = U+043D, е = U+0435,
т = U+0442). -/
def negative_word : List Nat := [1085, 1077, 1090]

/-- The reply sent back by `handle_response`, one constructor per
`reply_text` call (lines 222, 226, 228, 231, 234-237). -/
inductive Reply where
  | morning_accepted
  | lunch_accepted
  | already_complete
  | remind_later
  | help_message
deriving DecidableEq, Repr

/-- The body of `handle_response` (lines 212-237) after the
`get_user_state` call, given the current-day state `st` and the raw
message text: the source computes `text.lower().strip()` (line 216) and
compares it against `"да"` and `"нет"`. -/
def handle_response (raw : List Nat) (st : VitaminState) : VitaminState × Reply :=
  let text := pyStrip (pyLower raw)
  if text = affirmative_word then
    if !st.morning_taken then
      ({ st with morning_taken := true }, Reply.morning_accepted)
    else if !st.lunch_taken then
      ({ st with lunch_taken := true }, Reply.lunch_accepted)
    else (st, Reply.already_complete)
  else if text = negative_word then (st, Reply.remind_later)
  else (st, Reply.help_message)

/-- C7: affirmative-reply handling is a three-step acceptance machine: a
first `"да"` (morning not yet taken) sets `morning_taken := true` and leaves
everything else unchanged; a second (morning taken, lunch not) sets
`lunch_taken := true`; a third (both taken) answers "already complete" and
changes nothing. A `"нет"` and any unrecognised text change no state. -/
theorem affirmative_three_step (st : VitaminState) :
    (st.morning_taken = false →
      handle_response affirmative_word st =
        ({ st with morning_taken := true }, Reply.morning_accepted)) ∧
    (st.morning_taken = true → st.lunch_taken = false →
      handle_response affirmative_word st =
        ({ st with lunch_taken := true }, Reply.lunch_accepted)) ∧
    (st.morning_taken = true → st.lunch_taken = true →
      handle_response affirmative_word st = (st, Reply.already_complete)) ∧
    handle_response negative_word st = (st, Reply.remind_later) ∧
    (∀ raw : List Nat, pyStrip (pyLower raw) ≠ affirmative_word →
      pyStrip (pyLower raw) ≠ negative_word →
      handle_response raw st = (st, Reply.help_message)) := by
  have haff : pyStrip (pyLower affirmative_word) = affirmative_word := by decide
  have hneg : pyStrip (pyLower negative_word) = negative_word := by decide
  have hne : negative_word ≠ affirmative_word := by decide
  refine ⟨?_, ?_, ?_, ?_, ?_⟩
  · intro hm
    simp [handle_response, haff, hm]
  · intro hm hl
    simp [handle_response, haff, hm, hl]
  · intro hm hl
    simp [handle_response, haff, hm, hl]
  · simp [handle_response, hneg, hne]
  · intro raw h1 h2
    simp [handle_response, h1, h2]

/-- Witness for C7: the three affirmative replies in succession starting
from a fresh state, then the no-op negative reply. -/
theorem affirmative_three_step_witness :
    handle_response affirmative_word ⟨false, false, 0, 0, "2024-01-01"⟩ =
      (⟨true, false, 0, 0, "2024-01-01"⟩, Reply.morning_accepted) ∧
    handle_response affirmative_word ⟨true, false, 0, 0, "2024-01-01"⟩ =
      (⟨true, true, 0, 0, "2024-01-01"⟩, Reply.lunch_accepted) ∧
    handle_response affirmative_word ⟨true, true, 0, 0, "2024-01-01"⟩ =
      (⟨true, true, 0, 0, "2024-01-01"⟩, Reply.already_complete) ∧
    handle_response negative_word ⟨false, false, 0, 0, "2024-01-01"⟩ =
      (⟨false, false, 0, 0, "2024-01-01"⟩, Reply.remind_later) := by
  refine ⟨?_, ?_, ?_, ?_⟩
  · exact (affirmative_three_step ⟨false, false, 0, 0, "2024-01-01"⟩).1 rfl
  · exact (affirmative_three_step ⟨true, false, 0, 0, "2024-01-01"⟩).2.1 rfl rfl
  · exact (affirmative_three_step ⟨true, true, 0, 0, "2024-01-01"⟩).2.2.1 rfl rfl
  · exact (affirmative_three_step ⟨false, false, 0, 0, "2024-01-01"⟩).2.2.2.1

/-- Lowercasing is idempotent code point by code point. -/
lemma pyLowerChar_idem (c : Nat) : pyLowerChar (pyLowerChar c) = pyLowerChar c := by
  unfold pyLowerChar
  split_ifs <;> omega

/-- Lowercasing neither creates nor destroys whitespace. -/
lemma pyIsSpace_pyLowerChar (c : Nat) : pyIsSpace (pyLowerChar c) = pyIsSpace c := by
  unfold pyLowerChar pyIsSpace
  split_ifs with h1 h2 h3
  · rw [Bool.eq_iff_iff]; simp only [Bool.or_eq_true, beq_iff_eq]; omega
  · rw [Bool.eq_iff_iff]; simp only [Bool.or_eq_true, beq_iff_eq]; omega
  · rw [Bool.eq_iff_iff]; simp only [Bool.or_eq_true, beq_iff_eq]; omega
  · rfl

lemma pyIsSpace_comp_pyLowerChar : pyIsSpace ∘ pyLowerChar = pyIsSpace :=
  funext pyIsSpace_pyLowerChar

/-- `str.lower()` is idempotent. -/
lemma pyLower_pyLower (t : List Nat) : pyLower (pyLower t) = pyLower t := by
  unfold pyLower
  rw [List.map_map]
  exact congrArg (fun f => t.map f) (funext pyLowerChar_idem)

/-- `str.strip()` commutes with `str.lower()`. -/
lemma pyStrip_pyLower (t : List Nat) : pyStrip (pyLower t) = pyLower (pyStrip t) := by
  simp only [pyStrip, pyLower, List.rdropWhile, List.dropWhile_map,
    pyIsSpace_comp_pyLowerChar, ← List.map_reverse]

/-- Dropping leading whitespace from an already left-stripped, then
right-stripped text is a no-op: the right strip only shortens the tail, so
the head (which is not whitespace) survives. -/
lemma dropWhile_rdropWhile_dropWhile (t : List Nat) :
    (((t.dropWhile pyIsSpace).rdropWhile pyIsSpace).dropWhile pyIsSpace) =
      (t.dropWhile pyIsSpace).rdropWhile pyIsSpace := by
  rw [List.dropWhile_eq_self_iff]
  intro hl
  have hpre : (t.dropWhile pyIsSpace).rdropWhile pyIsSpace <+: t.dropWhile pyIsSpace :=
    List.rdropWhile_prefix _ _
  have hlen : 0 < (t.dropWhile pyIsSpace).length :=
    lt_of_lt_of_le hl hpre.length_le
  have hget : (t.dropWhile pyIsSpace).get ⟨0, hlen⟩ =
      ((t.dropWhile pyIsSpace).rdropWhile pyIsSpace).get ⟨0, hl⟩ := by
    simpa [List.get_eq_getElem] using (hpre.getElem hl).symm
  have hself : ((t.dropWhile pyIsSpace).dropWhile pyIsSpace) = t.dropWhile pyIsSpace :=
    List.dropWhile_idempotent _ _
  have hhead := (List.dropWhile_eq_self_iff).mp hself hlen
  exact hget ▸ hhead

/-- `str.strip()` is idempotent. -/
lemma pyStrip_pyStrip (t : List Nat) : pyStrip (pyStrip t) = pyStrip t := by
  unfold pyStrip
  rw [dropWhile_rdropWhile_dropWhile, List.rdropWhile_idempotent]

/-- Pre-normalising the input with `strip` then `lower` does not change the
text that `handle_response`'s own `.lower().strip()` computes. -/
lemma normalize_of_normalized (t : List Nat) :
    pyStrip (pyLower (pyLower (pyStrip t))) = pyStrip (pyLower t) := by
  rw [pyLower_pyLower, ← pyStrip_pyLower, pyStrip_pyStrip]

/-- C10: user-reply classification is invariant under surrounding
whitespace and letter case: `handle_response` behaves identically on the
raw text and on `text.strip().lower()`. -/
theorem handle_response_case_invariant (raw : List Nat) (st : VitaminState) :
    handle_response raw st = handle_response (pyLower (pyStrip raw)) st := by
  simp only [handle_response, normalize_of_normalized]

/-- The body of the `/reset` command handler (lines 200-210) at the level
of a single user's state: the handler reads the state through
`get_user_state` (which applies the rollover check for `today`), then sets
both flags to `false` and both counters to `0`; it does not itself assign
`last_reset`. -/
def reset (st : VitaminState) (today : String) : VitaminState :=
  let s := st.reset_if_new_day today
  { s with morning_taken := false
           lunch_taken := false
           morning_reminder_count := 0
           lunch_reminder_count := 0 }

/-- C9 counterexample: on a state last reset on 2024-01-01 handled on
2024-01-02, the `/reset` command changes `last_reset` to 2024-01-02 (the
rollover check inside `get_user_state` advances it), refuting that
`last_reset_date` is left unchanged for every starting state. -/
theorem reset_counterexample :
    (reset ⟨true, true, 2, 1, "2024-01-01"⟩ "2024-01-02").last_reset ≠ "2024-01-01" ∧
    reset ⟨true, true, 2, 1, "2024-01-01"⟩ "2024-01-02" =
      ⟨false, false, 0, 0, "2024-01-02"⟩ := by
  refine ⟨?_, by decide⟩
  decide

/-- C9 amended: the `/reset` command always zeroes both flags and both
counters; its own mutation never touches `last_reset` (the result carries
exactly the `last_reset` produced by the rollover check), so whenever the
state is already current for `today` — which the source's lazy-rollover
invariant guarantees at every access — `last_reset` is unchanged. -/
theorem reset_zeroes_amended (st : VitaminState) (today : String) :
    (reset st today).morning_taken = false ∧
    (reset st today).lunch_taken = false ∧
    (reset st today).morning_reminder_count = 0 ∧
    (reset st today).lunch_reminder_count = 0 ∧
    (reset st today).last_reset = (st.reset_if_new_day today).last_reset ∧
    (st.last_reset = today → (reset st today).last_reset = st.last_reset) := by
  refine ⟨rfl, rfl, rfl, rfl, rfl, ?_⟩
  intro h
  show (st.reset_if_new_day today).last_reset = st.last_reset
  rw [VitaminState.last_reset_of_reset_if_new_day]
  exact h.symm

/-- Witness for C9's amended theorem: resetting a same-day state keeps its
date. -/
theorem reset_zeroes_amended_witness :
    (reset ⟨true, false, 1, 0, "2024-01-01"⟩ "2024-01-01").last_reset = "2024-01-01" :=
  (reset_zeroes_amended ⟨true, false, 1, 0, "2024-01-01"⟩ "2024-01-01").2.2.2.2.2 rfl

/-! ### Job scheduling -/

/-- The five reminder types iterated over in `schedule_daily_reminders`
(lines 345-359). -/
def slot_names : List String :=
  ["morning_first", "morning_second", "lunch_first", "lunch_second", "final"]

/-- Names of the weekday jobs installed for a user
(`f'{reminder_type}_{user_id}_weekday'`, line 369). -/
def weekday_job_names (user_id : Nat) : List String :=
  slot_names.map (fun s => s ++ "_" ++ toString user_id ++ "_weekday")

/-- Names of the weekend jobs installed for a user
(`f'{reminder_type}_{user_id}_weekend'`, line 380). -/
def weekend_job_names (user_id : Nat) : List String :=
  slot_names.map (fun s => s ++ "_" ++ toString user_id ++ "_weekend")

/-- `schedule_daily_reminders` (lines 335-381) with the job queue modelled
as the list of active job names: it removes every job whose name is exactly
`f'morning_first_{user_id}'` (lines 340-342: `get_jobs_by_name` followed by
`schedule_removal` on each hit), then adds the five weekday jobs and the
five weekend jobs via `run_daily`. -/
def schedule_daily_reminders (jobs : List String) (user_id : Nat) : List String :=
  let remaining := jobs.filter (fun n => n != "morning_first_" ++ toString user_id)
  remaining ++ weekday_job_names user_id ++ weekend_job_names user_id

/-- C1: the removal key `morning_first_{user_id}` never matches any
installed job name (installed names carry a `_weekday`/`_weekend` suffix),
so a first install leaves 10 jobs but a second install leaves 20 jobs for
the user — each of the 10 trigger names twice — not the 10 the claim
requires. -/
theorem double_install_leaves_twenty :
    (schedule_daily_reminders [] 7).length = 10 ∧
    (schedule_daily_reminders [] 7).filter
      (fun n => n == "morning_first_" ++ toString 7) = [] ∧
    (schedule_daily_reminders (schedule_daily_reminders [] 7) 7).length = 20 ∧
    ((schedule_daily_reminders (schedule_daily_reminders [] 7) 7).filter
      (fun n => (weekday_job_names 7 ++ weekend_job_names 7).contains n)).length = 20 := by
  refine ⟨by decide, by decide, by decide, by decide⟩

end VitaminBot
